import Mathlib

/-!
Shallow embedding of the sequential crawl-and-report pipeline in
`Module3_WebCrawler_NBA/nba_crawler.py` (class `NBAStatsCrawler`).

The three black-box capabilities (HTTP fetch, HTML parse, file write) and the
clock are modelled by an environment `Env` of pure functions; the observable
side effects of a call (fetch attempts, pacing sleeps, file writes) are
returned as an explicit trace of `Effect`s.  A Python exception escaping the
`try:` block of `crawl_page` is modelled by `Except PyExn`; the uncaught
exception of a failing final `json.dump` in `crawl_multiple` likewise.
Elapsed times are modelled as exact rationals.
-/

/-- Python `s.replace(pat, rep)` on character lists: replace every
non-overlapping occurrence of `pat`, scanning left to right.  Fuel-based so
that it is structural (and hence kernel-reducible); fuel `s.length` is always
enough because each step consumes at least one character. -/
def replaceFuel (pat rep : List Char) : Nat → List Char → List Char
  | 0, s => s
  | _ + 1, [] => []
  | fuel + 1, c :: rest =>
    if pat ≠ [] ∧ (c :: rest).take pat.length = pat then
      rep ++ replaceFuel pat rep fuel (List.drop pat.length (c :: rest))
    else
      c :: replaceFuel pat rep fuel rest

/-- Python `str.replace` on `String`. -/
def pyReplace (s pat rep : String) : String :=
  ⟨replaceFuel pat.data rep.data s.data.length s.data⟩

/-- The dict built by `crawl_page` for a successfully processed page
(source lines 130-139). -/
structure PageData where
  url : String
  title : String
  crawled_at : String
  status_code : Nat
  num_tables : Nat
  num_links : Nat
  content_length : Nat
  crawl_time_seconds : Rat
deriving DecidableEq, Repr

/-- What the parse capability (`BeautifulSoup`) exposes to `crawl_page`:
the document title (absent when there is no title element), and the counts
of `table` and `a` elements. -/
structure ParsedDoc where
  titleOpt : Option String
  numTables : Nat
  numLinks : Nat
deriving DecidableEq, Repr

/-- Outcome of the fetch capability (`self.session.get`): a raised timeout, a
raised connection-level error, or a response carrying a status code and a
body. A non-200 status is a normal response, not an exception. -/
inductive FetchOutcome where
  | timeout : FetchOutcome
  | netError : FetchOutcome
  | success (status : Nat) (content : String) : FetchOutcome
deriving DecidableEq, Repr

/-- A Python exception as seen by the handlers in `crawl_page`:
`requests.exceptions.Timeout` is caught separately from every other
exception. -/
inductive PyExn where
  | timeoutExn : PyExn
  | otherExn (msg : String) : PyExn
deriving DecidableEq, Repr

/-- The capability environment for one run: fetch outcome per URL, parse
outcome per body (`none` models a parse error), write success per path,
and the clock (elapsed seconds and ISO timestamp per URL). -/
structure Env where
  fetch : String → FetchOutcome
  parse : String → Option ParsedDoc
  writeOk : String → Bool
  elapsed : String → Rat
  timestamp : String → String

/-- Observable side effects, in order of occurrence: a fetch attempt for a
URL, a pacing sleep of a number of seconds, a raw-HTML snapshot write, the
final results-artifact write. -/
inductive Effect where
  | fetchE (url : String) : Effect
  | sleepE (seconds : Nat) : Effect
  | writeRawE (path : String) : Effect
  | writeResultsE (path : String) : Effect
deriving DecidableEq, Repr

/-- Path of the per-page raw HTML snapshot (source lines 149-150): the URL
with the scheme stripped and slashes replaced by underscores, suffixed with
the html extension, under `output_dir/raw/`. -/
def rawPath (output_dir url : String) : String :=
  output_dir ++ "/raw/" ++ pyReplace (pyReplace url ("https://") ("")) ("/") ("_") ++ ".html"

/-- Path of the aggregated results artifact (source line 193). -/
def resultsPath (output_dir : String) : String :=
  output_dir ++ "/processed/crawl_results.json"

/-- The body of the `try:` block of `crawl_page` (source lines 113-155):
fetch, require status 200 (`return None` otherwise), parse, build the data
dict, optionally write the raw snapshot.  `.error` marks an exception
escaping the block; `.ok none` is the explicit `return None` on a non-200
status; `.ok (some data)` is the successful return. -/
def crawl_page_body (env : Env) (output_dir url : String) (save_html : Bool) :
    Except PyExn (Option PageData) × List Effect :=
  match env.fetch url with
  | .timeout => (.error .timeoutExn, [.fetchE url])
  | .netError => (.error (.otherExn ("connection error")), [.fetchE url])
  | .success status content =>
    if status ≠ 200 then
      (.ok none, [.fetchE url])
    else
      match env.parse content with
      | none => (.error (.otherExn ("parse error")), [.fetchE url])
      | some doc =>
        let data : PageData :=
          { url := url
            title := doc.titleOpt.getD ("No title")
            crawled_at := env.timestamp url
            status_code := status
            num_tables := doc.numTables
            num_links := doc.numLinks
            content_length := content.length
            crawl_time_seconds := env.elapsed url }
        if save_html then
          let filepath := rawPath output_dir url
          if env.writeOk filepath then
            (.ok (some data), [.fetchE url, .writeRawE filepath])
          else
            (.error (.otherExn ("IOError")), [.fetchE url, .writeRawE filepath])
        else
          (.ok (some data), [.fetchE url])

/-- `crawl_page` (source lines 99-165): the `try:` body wrapped in
`except requests.exceptions.Timeout: return None`,
`except Exception: return None`, and `finally: time.sleep(2)`.
Every exception is mapped to `none` and the pacing sleep is appended to the
trace on every path. -/
def crawl_page (env : Env) (output_dir url : String) (save_html : Bool) :
    Option PageData × List Effect :=
  let r := crawl_page_body env output_dir url save_html
  (match r.1 with
   | .ok v => v
   | .error _ => none,
   r.2 ++ [.sleepE 2])

/-- The truncation `if max_pages: urls = urls[:max_pages]` of
`crawl_multiple` (source lines 179-180); `None` and `0` are falsy in Python,
so no truncation happens for them. -/
def truncateUrls (urls : List String) (max_pages : Option Nat) : List String :=
  match max_pages with
  | some n => if n ≠ 0 then urls.take n else urls
  | none => urls

/-- The accumulation loop of `crawl_multiple` (source lines 185-190):
call `crawl_page` on each URL in order (with `save_html` defaulted to
`True`), append non-`None` results, concatenate the effect traces. -/
def crawl_loop (env : Env) (output_dir : String) : List String → List PageData × List Effect
  | [] => ([], [])
  | url :: rest =>
    let r := crawl_page env output_dir url true
    let rs := crawl_loop env output_dir rest
    (r.1.toList ++ rs.1, r.2 ++ rs.2)

/-- `crawl_multiple` (source lines 167-202): truncate by `max_pages`, run the
loop, then write the aggregated JSON artifact.  The final write is not inside
any `try:`, so its failure is an uncaught exception (`.error`). -/
def crawl_multiple (env : Env) (output_dir : String) (urls : List String)
    (max_pages : Option Nat) : Except PyExn (List PageData) × List Effect :=
  let selected := truncateUrls urls max_pages
  let loopOut := crawl_loop env output_dir selected
  let output_file := resultsPath output_dir
  if env.writeOk output_file then
    (.ok loopOut.1, loopOut.2 ++ [.writeResultsE output_file])
  else
    (.error (.otherExn ("IOError")), loopOut.2 ++ [.writeResultsE output_file])

/-- The value computed by `generate_report` (source lines 246-279): either
the sentinel string `"No data to report"` for an empty input, or a report
carrying the page count, total table count, total link count, average crawl
time, and the per-page listing of `(title, num_tables)`. -/
inductive Report where
  | noData : Report
  | summary (total_pages total_tables total_links : Nat) (avg_time : Rat)
      (listing : List (String × Nat)) : Report
deriving DecidableEq, Repr

/-- `generate_report` (source lines 246-279): `if not results: return
"No data to report"`, else totals and the arithmetic mean of
`crawl_time_seconds`.  It performs no effects, so no trace is produced. -/
def generate_report (results : List PageData) : Report :=
  if results = [] then .noData
  else
    .summary results.length
      ((results.map PageData.num_tables).sum)
      ((results.map PageData.num_links).sum)
      (((results.map PageData.crawl_time_seconds).sum) / (results.length : Rat))
      (results.map fun r => (r.title, r.num_tables))

/-- The average-crawl-time field of a report, when it has one. -/
def Report.avgTime : Report → Option Rat
  | .noData => none
  | .summary _ _ _ a _ => some a

/-- The URLs of the fetch attempts in a trace, in order. -/
def fetchedUrls (effs : List Effect) : List String :=
  effs.filterMap fun e =>
    match e with
    | .fetchE u => some u
    | _ => none

/-- Whether an effect is a pacing sleep. -/
def isSleep : Effect → Bool
  | .sleepE _ => true
  | _ => false

/-! ## Helper lemmas -/

/-- The `try:` body emits either just the fetch attempt, or the fetch attempt
followed by the raw-snapshot write; in particular it never sleeps. -/
theorem crawl_page_body_trace (env : Env) (dir url : String) (sh : Bool) :
    (crawl_page_body env dir url sh).2 = [Effect.fetchE url] ∨
    (crawl_page_body env dir url sh).2 =
      [Effect.fetchE url, Effect.writeRawE (rawPath dir url)] := by
  unfold crawl_page_body
  cases hf : env.fetch url with
  | timeout => exact Or.inl rfl
  | netError => exact Or.inl rfl
  | success status content =>
    dsimp only
    by_cases hs : status ≠ 200
    · rw [if_pos hs]
      exact Or.inl rfl
    · rw [if_neg hs]
      cases hp : env.parse content with
      | none => exact Or.inl rfl
      | some doc =>
        cases sh with
        | false => exact Or.inl rfl
        | true =>
          by_cases hw : env.writeOk (rawPath dir url)
          · simp only [if_pos hw]
            exact Or.inr rfl
          · simp only [if_neg hw]
            exact Or.inr rfl

theorem fetchedUrls_append (a b : List Effect) :
    fetchedUrls (a ++ b) = fetchedUrls a ++ fetchedUrls b :=
  List.filterMap_append a b _

/-- Each `crawl_page` call fetches its URL exactly once. -/
theorem crawl_page_fetched (env : Env) (dir url : String) (sh : Bool) :
    fetchedUrls (crawl_page env dir url sh).2 = [url] := by
  show fetchedUrls ((crawl_page_body env dir url sh).2 ++ [Effect.sleepE 2]) = [url]
  rw [fetchedUrls_append]
  rcases crawl_page_body_trace env dir url sh with h | h <;> rw [h] <;> rfl

/-- The loop of `crawl_multiple` returns exactly the non-`None` results of
`crawl_page`, in target order. -/
theorem crawl_loop_results (env : Env) (dir : String) (urls : List String) :
    (crawl_loop env dir urls).1 =
      urls.filterMap fun u => (crawl_page env dir u true).1 := by
  induction urls with
  | nil => rfl
  | cons u rest ih =>
    simp only [crawl_loop, List.filterMap_cons, ih]
    cases (crawl_page env dir u true).1 <;> rfl

/-- The loop of `crawl_multiple` fetches the selected URLs, each once,
in order. -/
theorem crawl_loop_fetched (env : Env) (dir : String) (urls : List String) :
    fetchedUrls (crawl_loop env dir urls).2 = urls := by
  induction urls with
  | nil => rfl
  | cons u rest ih =>
    simp only [crawl_loop]
    rw [fetchedUrls_append, crawl_page_fetched, ih]
    rfl

/-- Whatever sequence `crawl_multiple` returns is the in-order sequence of
successful `crawl_page` results over the truncated URL list. -/
theorem crawl_multiple_ok (env : Env) (dir : String) (urls : List String)
    (mp : Option Nat) (res : List PageData)
    (h : (crawl_multiple env dir urls mp).1 = Except.ok res) :
    res = (truncateUrls urls mp).filterMap fun u => (crawl_page env dir u true).1 := by
  by_cases hw : env.writeOk (resultsPath dir)
  · simp only [crawl_multiple, hw, if_true] at h
    cases h
    exact crawl_loop_results env dir _
  · simp only [crawl_multiple, hw, Bool.false_eq_true, if_false] at h
    cases h

/-- The fetch attempts of a whole `crawl_multiple` run are exactly the
truncated URL list, in order. -/
theorem crawl_multiple_fetched (env : Env) (dir : String) (urls : List String)
    (mp : Option Nat) :
    fetchedUrls (crawl_multiple env dir urls mp).2 = truncateUrls urls mp := by
  have hsplit : (crawl_multiple env dir urls mp).2 =
      (crawl_loop env dir (truncateUrls urls mp)).2 ++
        [Effect.writeResultsE (resultsPath dir)] := by
    by_cases hw : env.writeOk (resultsPath dir) <;>
      simp [crawl_multiple, hw]
  rw [hsplit, fetchedUrls_append, crawl_loop_fetched]
  simp [fetchedUrls]

/-! ## Concrete environments for witnesses and counterexamples -/

/-- A parse result with a title and small element counts. -/
def docA : ParsedDoc := { titleOpt := some ("T"), numTables := 1, numLinks := 2 }

/-- Environment where every fetch succeeds with status 200, every body parses
to `docA`, and every write succeeds. -/
def envA : Env :=
  { fetch := fun _ => .success 200 ("")
    parse := fun _ => some docA
    writeOk := fun _ => true
    elapsed := fun _ => 0
    timestamp := fun _ => ("") }

/-- The record `crawl_page` produces for a URL under `envA`. -/
def pdA (u : String) : PageData :=
  { url := u, title := ("T"), crawled_at := (""), status_code := 200,
    num_tables := 1, num_links := 2, content_length := 0, crawl_time_seconds := 0 }

/-- A three-element target list. -/
def urlsA : List String := [("u1"), ("u2"), ("u3")]

/-- Environment where every fetch raises a timeout. -/
def envT : Env :=
  { fetch := fun _ => .timeout
    parse := fun _ => none
    writeOk := fun _ => true
    elapsed := fun _ => 0
    timestamp := fun _ => ("") }

/-! ## Claims -/

/-- Claim C1: for every URL list and every positive cap `C`, a sequence
returned by `crawl_multiple` has length at most `min (len urls) C`, and it is
exactly the in-order sequence of successful per-target records over the first
`C` URLs — no reordering, no deduplication. -/
theorem crawl_multiple_capped_length_order (env : Env) (dir : String)
    (urls : List String) (C : Nat) (res : List PageData) (hC : 0 < C)
    (h : (crawl_multiple env dir urls (some C)).1 = Except.ok res) :
    res.length ≤ min urls.length C ∧
    res = (urls.take C).filterMap fun u => (crawl_page env dir u true).1 := by
  have htr : truncateUrls urls (some C) = urls.take C := by
    simp [truncateUrls, Nat.pos_iff_ne_zero.mp hC]
  have hres := crawl_multiple_ok env dir urls (some C) res h
  rw [htr] at hres
  refine ⟨?_, hres⟩
  calc res.length ≤ (urls.take C).length := by
        rw [hres]; exact List.length_filterMap_le _ _
    _ = min C urls.length := List.length_take _ _
    _ = min urls.length C := Nat.min_comm _ _

/-- Witness for C1: three targets capped at 2 under `envA`. -/
theorem crawl_multiple_capped_length_order_witness :
    ([pdA ("u1"), pdA ("u2")] : List PageData).length ≤ min urlsA.length 2 ∧
    [pdA ("u1"), pdA ("u2")] =
      (urlsA.take 2).filterMap fun u => (crawl_page envA ("data") u true).1 :=
  crawl_multiple_capped_length_order envA ("data") urlsA 2 [pdA ("u1"), pdA ("u2")]
    (by decide) rfl

/-- Claim C2: every `crawl_page` invocation executes the pacing sleep of
2 seconds exactly once, after all other effects, on every exit path. -/
theorem crawl_page_sleep_exactly_once_last (env : Env) (dir url : String)
    (sh : Bool) :
    ∃ pre, (crawl_page env dir url sh).2 = pre ++ [Effect.sleepE 2] ∧
      ∀ e ∈ pre, isSleep e = false := by
  refine ⟨(crawl_page_body env dir url sh).2, rfl, ?_⟩
  intro e he
  rcases crawl_page_body_trace env dir url sh with h | h <;> rw [h] at he <;>
    simp only [List.mem_singleton, List.mem_cons, List.not_mem_nil, or_false] at he
  · rw [he]; rfl
  · rcases he with he | he <;> rw [he] <;> rfl

/-- Claim C3: whenever the `try:` body of `crawl_page` raises any exception
(timeout, network error, parse error, raw-write error), `crawl_page` returns
`none` instead of letting the exception propagate to its caller. -/
theorem crawl_page_exceptions_return_none (env : Env) (dir url : String)
    (sh : Bool) (e : PyExn) (t : List Effect)
    (h : crawl_page_body env dir url sh = (Except.error e, t)) :
    (crawl_page env dir url sh).1 = none := by
  show (match (crawl_page_body env dir url sh).1 with
        | .ok v => v
        | .error _ => none) = none
  rw [h]

/-- Witness for C3: a fetch that times out under `envT`. -/
theorem crawl_page_exceptions_return_none_witness :
    (crawl_page envT ("data") ("u") true).1 = none :=
  crawl_page_exceptions_return_none envT ("data") ("u") true PyExn.timeoutExn
    [Effect.fetchE ("u")] rfl

/-- Claim C4: a target whose fetch returns a non-200 status contributes no
record to the result sequence, and the loop processes every other target
(before and after it) unaffected: the run is not halted. -/
theorem non200_contributes_nothing_run_continues (env : Env) (dir : String)
    (pre post : List String) (u : String) (s : Nat) (c : String)
    (hf : env.fetch u = FetchOutcome.success s c) (hs : s ≠ 200) :
    (crawl_page env dir u true).1 = none ∧
    (crawl_loop env dir (pre ++ u :: post)).1 =
      (crawl_loop env dir pre).1 ++ (crawl_loop env dir post).1 := by
  have hnone : (crawl_page env dir u true).1 = none := by
    show (match (crawl_page_body env dir u true).1 with
          | .ok v => v
          | .error _ => none) = none
    unfold crawl_page_body
    rw [hf]
    dsimp only
    rw [if_pos hs]
  refine ⟨hnone, ?_⟩
  simp only [crawl_loop_results, List.filterMap_append, List.filterMap_cons, hnone]

/-- Witness for C4: under `env404` the target `u` gets HTTP 404 while `a` and
`b` succeed. -/
def env404 : Env :=
  { fetch := fun v => if v = ("u") then .success 404 ("") else .success 200 ("")
    parse := fun _ => some docA
    writeOk := fun _ => true
    elapsed := fun _ => 0
    timestamp := fun _ => ("") }

/-- Witness for C4 at the run `["a", "u", "b"]` under `env404`. -/
theorem non200_contributes_nothing_run_continues_witness :
    (crawl_page env404 ("data") ("u") true).1 = none ∧
    (crawl_loop env404 ("data") ([("a")] ++ ("u") :: [("b")])).1 =
      (crawl_loop env404 ("data") [("a")]).1 ++ (crawl_loop env404 ("data") [("b")]).1 :=
  non200_contributes_nothing_run_continues env404 ("data") [("a")] [("b")] ("u")
    404 ("") rfl (by decide)

/-- Claim C5: with a positive cap smaller than the list length, the run
fetches exactly the first `C` URLs in original order — the fetch capability
is invoked exactly `C` times and the remaining URLs are never fetched. -/
theorem cap_limits_fetches_exactly (env : Env) (dir : String)
    (urls : List String) (C : Nat) (hC : 0 < C) (hlen : C < urls.length) :
    fetchedUrls (crawl_multiple env dir urls (some C)).2 = urls.take C ∧
    (fetchedUrls (crawl_multiple env dir urls (some C)).2).length = C := by
  have htr : truncateUrls urls (some C) = urls.take C := by
    simp [truncateUrls, Nat.pos_iff_ne_zero.mp hC]
  have h := crawl_multiple_fetched env dir urls (some C)
  rw [htr] at h
  refine ⟨h, ?_⟩
  rw [h, List.length_take]
  exact Nat.min_eq_left (Nat.le_of_lt hlen)

/-- Witness for C5: three targets capped at 2 under `envA`. -/
theorem cap_limits_fetches_exactly_witness :
    fetchedUrls (crawl_multiple envA ("data") urlsA (some 2)).2 = urlsA.take 2 ∧
    (fetchedUrls (crawl_multiple envA ("data") urlsA (some 2)).2).length = 2 :=
  cap_limits_fetches_exactly envA ("data") urlsA 2 (by decide) (by decide)

/-- Claim C6: on a non-empty record sequence, `generate_report` reports an
average crawl time equal to the arithmetic mean of the
`crawl_time_seconds` values of the records (exact, in rational
arithmetic). -/
theorem generate_report_mean_elapsed (results : List PageData)
    (h : results ≠ []) :
    Report.avgTime (generate_report results) =
      some (((results.map PageData.crawl_time_seconds).sum) / (results.length : Rat)) := by
  rw [generate_report, if_neg h]
  rfl

/-- A record with a given crawl time, for the C6 witness. -/
def pdTime (q : Rat) : PageData :=
  { url := ("u"), title := ("T"), crawled_at := (""), status_code := 200,
    num_tables := 0, num_links := 0, content_length := 0, crawl_time_seconds := q }

/-- Witness for C6 at a two-record sequence. -/
theorem generate_report_mean_elapsed_witness :
    Report.avgTime (generate_report [pdTime 1, pdTime 2]) =
      some ((([pdTime 1, pdTime 2].map PageData.crawl_time_seconds).sum) /
        (([pdTime 1, pdTime 2] : List PageData).length : Rat)) :=
  generate_report_mean_elapsed [pdTime 1, pdTime 2] (by decide)

/-- Claim C7: `generate_report` returns the "no data" sentinel exactly on the
empty record sequence — so the sentinel is distinguishable from every report
produced for a non-empty sequence, and no report with zero-valued fields
stands in for it.  The embedding is a pure function, so the call has no side
effects (no effect trace is produced). -/
theorem generate_report_empty_sentinel (results : List PageData) :
    generate_report results = Report.noData ↔ results = [] := by
  constructor
  · intro h
    by_contra hne
    rw [generate_report, if_neg hne] at h
    exact Report.noConfusion h
  · intro h
    rw [h]
    rfl

/-- Environment where writing the raw snapshot fails (only the results path
is writable) while fetch and parse succeed everywhere. -/
def envW : Env :=
  { fetch := fun _ => .success 200 ("")
    parse := fun _ => some docA
    writeOk := fun p => p == resultsPath ("data")
    elapsed := fun _ => 0
    timestamp := fun _ => ("") }

/-- Environment where every write fails. -/
def envW2 : Env :=
  { fetch := fun _ => .success 200 ("")
    parse := fun _ => some docA
    writeOk := fun _ => false
    elapsed := fun _ => 0
    timestamp := fun _ => ("") }

/-- Counterexample to claim C8 as stated: under `envW` the raw-snapshot write
for target `u` fails, yet `crawl_page` returns `none` (the `IOError` is
caught by its generic `except Exception` handler, which sits around the
`save_html` block) and the whole run completes normally with `ok []` — the
per-page write failure neither propagates nor aborts the run. -/
theorem raw_write_failure_is_caught_cex :
    envW.writeOk (rawPath ("data") ("u")) = false ∧
    (crawl_page envW ("data") ("u") true).1 = none ∧
    (crawl_multiple envW ("data") [("u")] none).1 = Except.ok [] :=
  ⟨rfl, rfl, rfl⟩

/-- Claim C8 (amended): a persistence failure on the final aggregated
artifact is uncaught and fatal to the run — `crawl_multiple` propagates the
error — whereas a persistence failure on the per-page raw HTML snapshot is
caught inside `crawl_page` (its write sits inside the `try:` block) and only
suppresses the record of that page. -/
theorem write_failure_propagation_amended :
    (∀ env dir urls mp, env.writeOk (resultsPath dir) = false →
      (crawl_multiple env dir urls mp).1 =
        Except.error (PyExn.otherExn ("IOError"))) ∧
    (∀ env dir url s c doc, env.fetch url = FetchOutcome.success s c →
      s = 200 → env.parse c = some doc → env.writeOk (rawPath dir url) = false →
      (crawl_page env dir url true).1 = none) := by
  constructor
  · intro env dir urls mp hw
    simp [crawl_multiple, hw]
  · intro env dir url s c doc hf hs hp hw
    subst hs
    simp [crawl_page, crawl_page_body, hf, hp, hw]

/-- Witness for the amended C8: under `envW2` the final artifact write fails
and the run errors out; under `envW` the raw snapshot write fails and the
page is merely skipped. -/
theorem write_failure_propagation_amended_witness :
    (crawl_multiple envW2 ("data") [("u")] none).1 =
        Except.error (PyExn.otherExn ("IOError")) ∧
    (crawl_page envW ("data") ("u") true).1 = none :=
  ⟨write_failure_propagation_amended.1 envW2 ("data") [("u")] none rfl,
   write_failure_propagation_amended.2 envW ("data") ("u") 200 ("") docA
     rfl rfl rfl rfl⟩

/-- Claim C9: for every successfully processed page, the title field of the
record is the document title when one is present and the string "No title"
when the title is absent. -/
theorem successful_page_title_default (env : Env) (dir url c : String)
    (doc : ParsedDoc) (hf : env.fetch url = FetchOutcome.success 200 c)
    (hp : env.parse c = some doc) (hw : env.writeOk (rawPath dir url) = true) :
    ∃ d, (crawl_page env dir url true).1 = some d ∧
      d.title = doc.titleOpt.getD ("No title") ∧
      (∀ t, doc.titleOpt = some t → d.title = t) ∧
      (doc.titleOpt = none → d.title = ("No title")) := by
  refine ⟨{ url := url, title := doc.titleOpt.getD ("No title"),
            crawled_at := env.timestamp url, status_code := 200,
            num_tables := doc.numTables, num_links := doc.numLinks,
            content_length := c.length, crawl_time_seconds := env.elapsed url },
    ?_, rfl, ?_, ?_⟩
  · simp [crawl_page, crawl_page_body, hf, hp, hw]
  · intro t ht
    rw [ht]
    rfl
  · intro ht
    rw [ht]
    rfl

/-- Witness for C9 under `envA`, whose parse capability returns a present
title. -/
theorem successful_page_title_default_witness :
    ∃ d, (crawl_page envA ("data") ("u") true).1 = some d ∧
      d.title = docA.titleOpt.getD ("No title") ∧
      (∀ t, docA.titleOpt = some t → d.title = t) ∧
      (docA.titleOpt = none → d.title = ("No title")) :=
  successful_page_title_default envA ("data") ("u") ("") docA rfl rfl rfl

/-- Claim C10: with `max_pages` equal to `None` or `0` no truncation occurs
(the cap is applied only when truthy in the Python sense), and every URL in
the list is fetched, in order. -/
theorem no_cap_or_zero_processes_all (env : Env) (dir : String)
    (urls : List String) :
    truncateUrls urls none = urls ∧
    truncateUrls urls (some 0) = urls ∧
    fetchedUrls (crawl_multiple env dir urls none).2 = urls ∧
    fetchedUrls (crawl_multiple env dir urls (some 0)).2 = urls := by
  refine ⟨rfl, rfl, ?_, ?_⟩
  · rw [crawl_multiple_fetched]
    rfl
  · rw [crawl_multiple_fetched]
    rfl
